import Mathlib

/-!
# Verification of the `liquid-glass` update pipeline

A shallow embedding of `src/liquid-glass.js`, the custom element that
synthesizes a displacement-map SVG filter for its current size and numeric
attributes.  The embedding covers the pieces the specification's claims are
about:

* `parseFloat` / `getNumberAttribute` — attribute resolution (the source's
  `_getNumberAttribute`, JS string truthiness and `parseFloat` prefix
  parsing included);
* `cacheKey` — the template-literal cache key
  `` `${width}x${height}:${depth}:${strength}:${chromaticAberration}` ``;
* `getDisplacementMap` / `getDisplacementFilter` — structural renderings of
  the SVG markup produced by `_getDisplacementMap` and
  `_getDisplacementFilter` (the markup is modelled as structured data, with
  every numeric attribute computed exactly as in the source);
* `updateFilter` — the `_updateFilter` state transition: zero-size guard,
  rounding, blur dedup write, cache-key comparison, capability-gated filter
  publication;
* the rAF resize coalescer of `connectedCallback` and the per-process
  capability probe of the constructor.

JavaScript numbers are modelled as `JSNum`: either `NaN` or an exact
rational.  (IEEE-754 rounding is not modelled; all arithmetic appearing in
the claims is exact at the relevant inputs.)  JavaScript's injective
number-to-string conversion is modelled by the injective rendering
`numRender` (digits, sign and `/`), which keeps every property of the cache
key — determinism and collision-freedom — intact.
-/

/-! ## Decimal digits and their characters -/

/-- The character for one decimal digit (`0`–`9`). -/
def digitChar (d : Nat) : Char :=
  if d = 0 then '0' else if d = 1 then '1' else if d = 2 then '2'
  else if d = 3 then '3' else if d = 4 then '4' else if d = 5 then '5'
  else if d = 6 then '6' else if d = 7 then '7' else if d = 8 then '8'
  else '9'

/-- Numeric value of a decimal digit character. -/
def charVal (c : Char) : Nat :=
  if c = '0' then 0 else if c = '1' then 1 else if c = '2' then 2
  else if c = '3' then 3 else if c = '4' then 4 else if c = '5' then 5
  else if c = '6' then 6 else if c = '7' then 7 else if c = '8' then 8
  else 9

/-- Is `c` one of the ten decimal digit characters? -/
def isDigitC (c : Char) : Bool :=
  c = '0' || c = '1' || c = '2' || c = '3' || c = '4' || c = '5' ||
  c = '6' || c = '7' || c = '8' || c = '9'

/-- Big-endian decimal digit characters of `n`, with explicit fuel so the
recursion is structural (the fuel `n` itself always suffices). -/
def natDigitsAux : Nat → Nat → List Char
  | 0, _ => []
  | _ + 1, 0 => []
  | fuel + 1, n + 1 =>
    natDigitsAux fuel ((n + 1) / 10) ++ [digitChar ((n + 1) % 10)]

/-- Decimal rendering of a natural number, as JavaScript renders an
integral number (`0` renders as `"0"`). -/
def natRepr (n : Nat) : List Char :=
  if n = 0 then ['0'] else natDigitsAux n n

/-- Decimal rendering of an integer (a leading `-` for negatives). -/
def intRepr (z : Int) : List Char :=
  if z < 0 then '-' :: natRepr z.natAbs else natRepr z.natAbs

/-- One step of decimal accumulation. -/
def digitStep (acc : Nat) (c : Char) : Nat := 10 * acc + charVal c

theorem charVal_digitChar {d : Nat} (h : d < 10) : charVal (digitChar d) = d := by
  interval_cases d <;> rfl

theorem isDigitC_digitChar {d : Nat} (h : d < 10) : isDigitC (digitChar d) = true := by
  interval_cases d <;> rfl

theorem foldl_natDigitsAux :
    ∀ fuel n acc, n ≤ fuel →
      List.foldl digitStep acc (natDigitsAux fuel n) =
        acc * 10 ^ (natDigitsAux fuel n).length + n := by
  intro fuel
  induction fuel with
  | zero =>
    intro n acc h
    interval_cases n
    simp [natDigitsAux]
  | succ fuel ih =>
    intro n acc h
    match n with
    | 0 => simp [natDigitsAux]
    | m + 1 =>
      have hdiv : (m + 1) / 10 ≤ fuel := by
        have : (m + 1) / 10 < m + 1 := Nat.div_lt_self (Nat.succ_pos m) (by norm_num)
        omega
      have hmod : (m + 1) % 10 < 10 := Nat.mod_lt _ (by norm_num)
      have hcv := charVal_digitChar hmod
      simp only [natDigitsAux, List.foldl_append, List.foldl_cons, List.foldl_nil,
        List.length_append, List.length_cons, List.length_nil]
      rw [ih _ acc hdiv]
      simp only [digitStep, hcv]
      rw [pow_succ, ← mul_assoc]
      generalize acc * 10 ^ (natDigitsAux fuel ((m + 1) / 10)).length = A
      omega

theorem foldl_natRepr (n : Nat) : List.foldl digitStep 0 (natRepr n) = n := by
  by_cases h : n = 0
  · subst h; rfl
  · rw [natRepr, if_neg h]
    have := foldl_natDigitsAux n n 0 (le_refl n)
    simpa using this

theorem mem_natDigitsAux_isDigit :
    ∀ fuel n c, c ∈ natDigitsAux fuel n → isDigitC c = true := by
  intro fuel
  induction fuel with
  | zero => intro n c hc; simp [natDigitsAux] at hc
  | succ fuel ih =>
    intro n c hc
    match n with
    | 0 => simp [natDigitsAux] at hc
    | m + 1 =>
      rw [natDigitsAux] at hc
      rcases List.mem_append.mp hc with h | h
      · exact ih _ _ h
      · rcases List.mem_singleton.mp h with rfl
        exact isDigitC_digitChar (Nat.mod_lt _ (by norm_num))

theorem mem_natRepr_isDigit {n : Nat} {c : Char} (h : c ∈ natRepr n) :
    isDigitC c = true := by
  by_cases h0 : n = 0
  · subst h0
    rcases List.mem_singleton.mp h with rfl
    rfl
  · rw [natRepr, if_neg h0] at h
    exact mem_natDigitsAux_isDigit n n c h

theorem natDigitsAux_ne_nil (fuel m : Nat) (h : m + 1 ≤ fuel) :
    natDigitsAux fuel (m + 1) ≠ [] := by
  match fuel with
  | 0 => omega
  | f + 1 =>
    rw [natDigitsAux]
    simp

theorem natRepr_ne_nil (n : Nat) : natRepr n ≠ [] := by
  by_cases h : n = 0
  · subst h; simp [natRepr]
  · rw [natRepr, if_neg h]
    match n, h with
    | m + 1, _ => exact natDigitsAux_ne_nil (m + 1) m (le_refl _)

/-! ## Greedy decimal parsing (left inverse of the renderings) -/

/-- Greedy parser for a run of decimal digits, accumulator style. -/
def parseNatAux : List Char → Nat → Nat × List Char
  | [], acc => (acc, [])
  | c :: cs, acc =>
    if isDigitC c then parseNatAux cs (digitStep acc c) else (acc, c :: cs)

/-- The list `rest` does not begin with a decimal digit. -/
def headNotDigit : List Char → Prop
  | [] => True
  | c :: _ => isDigitC c = false

theorem parseNatAux_append {l : List Char} {rest : List Char}
    (hl : ∀ c ∈ l, isDigitC c = true) (hr : headNotDigit rest) (acc : Nat) :
    parseNatAux (l ++ rest) acc = (List.foldl digitStep acc l, rest) := by
  induction l generalizing acc with
  | nil =>
    match rest with
    | [] => rfl
    | c :: cs =>
      simp only [List.nil_append, List.foldl_nil, parseNatAux]
      rw [if_neg]
      simp [headNotDigit] at hr
      simp [hr]
  | cons c cs ih =>
    have hc : isDigitC c = true := hl c (List.mem_cons_self c cs)
    simp only [List.cons_append, parseNatAux, if_pos hc, List.foldl_cons]
    exact ih (fun x hx => hl x (List.mem_cons_of_mem c hx)) _

theorem parseNatAux_natRepr (n : Nat) {rest : List Char} (hr : headNotDigit rest) :
    parseNatAux (natRepr n ++ rest) 0 = (n, rest) := by
  rw [parseNatAux_append (fun c hc => mem_natRepr_isDigit hc) hr, foldl_natRepr]

/-- Parser for an optionally `-`-signed decimal integer. -/
def parseIntChars (l : List Char) : Int × List Char :=
  if l.head? = some '-' then
    ((-(parseNatAux l.tail 0).1 : Int), (parseNatAux l.tail 0).2)
  else
    (((parseNatAux l 0).1 : Int), (parseNatAux l 0).2)

theorem head_natRepr_not_dash (n : Nat) {rest : List Char} :
    (natRepr n ++ rest).head? ≠ some '-' := by
  match hn : natRepr n, natRepr_ne_nil n with
  | c :: cs, _ =>
    intro h
    simp only [List.cons_append, List.head?_cons, Option.some.injEq] at h
    have : isDigitC c = true := mem_natRepr_isDigit (hn ▸ List.mem_cons_self c cs)
    rw [h] at this
    exact absurd this (by decide)

theorem parseIntChars_intRepr (z : Int) {rest : List Char} (hr : headNotDigit rest) :
    parseIntChars (intRepr z ++ rest) = (z, rest) := by
  by_cases hz : z < 0
  · rw [intRepr, if_pos hz]
    simp only [List.cons_append, parseIntChars, List.head?_cons, List.tail_cons,
      if_pos rfl]
    rw [parseNatAux_natRepr _ hr]
    have : ((z.natAbs : Int)) = -z := by omega
    simp [this]
  · rw [intRepr, if_neg hz, parseIntChars, if_neg (head_natRepr_not_dash _)]
    rw [parseNatAux_natRepr _ hr]
    have : ((z.natAbs : Int)) = z := by omega
    simp [this]

/-! ## JavaScript numbers -/

/-- A JavaScript number as the claims need it: `NaN` or an exact rational.
(Infinities and IEEE-754 rounding are outside the behaviour the claims
exercise and are not modelled.) -/
inductive JSNum where
  | nan : JSNum
  | num : ℚ → JSNum
deriving DecidableEq

/-- JS `+` (NaN-propagating). -/
def jsAdd : JSNum → JSNum → JSNum
  | .num a, .num b => .num (a + b)
  | _, _ => .nan

/-- JS `*` (NaN-propagating). -/
def jsMul : JSNum → JSNum → JSNum
  | .num a, .num b => .num (a * b)
  | _, _ => .nan

/-- JS `-` (NaN-propagating). -/
def jsSub : JSNum → JSNum → JSNum
  | .num a, .num b => .num (a - b)
  | _, _ => .nan

/-- JS `>` — false when either side is NaN. -/
def jsGt : JSNum → JSNum → Bool
  | .num a, .num b => decide (b < a)
  | _, _ => false

/-- JS `<=` — false when either side is NaN. -/
def jsLe : JSNum → JSNum → Bool
  | .num a, .num b => decide (a ≤ b)
  | _, _ => false

/-- JS strict `!==` on numbers — true when either side is NaN
(`NaN !== NaN`). -/
def jsNeq : JSNum → JSNum → Bool
  | .num a, .num b => decide (a ≠ b)
  | _, _ => true

/-! ## Number rendering (the model of JS number-to-string) -/

/-- Injective rendering of a rational: signed numerator, `/`, denominator.
Stands in for JavaScript's (also injective) number-to-string conversion in
the cache-key template literal. -/
def qRender (q : ℚ) : List Char :=
  intRepr q.num ++ '/' :: natRepr q.den

/-- Rendering of a JS number; `NaN` renders as JavaScript renders it. -/
def numRender : JSNum → List Char
  | .nan => ['N', 'a', 'N']
  | .num q => qRender q

/-! ## The cache key of `_updateFilter`

Source line 394:
`const key = ` ``
`` `${width}x${height}:${depth}:${strength}:${chromaticAberration}` ``. -/

/-- String form of an integer. -/
def intStr (z : Int) : String := String.mk (intRepr z)

/-- String form of a JS number. -/
def numStr (v : JSNum) : String := String.mk (numRender v)

/-- The cache key built by `_updateFilter`. -/
def cacheKey (width height : Int) (depth strength chromaticAberration : JSNum) : String :=
  intStr width ++ "x" ++ intStr height ++ ":" ++ numStr depth ++ ":" ++
    numStr strength ++ ":" ++ numStr chromaticAberration

theorem data_append (s t : String) : (s ++ t).data = s.data ++ t.data := rfl

theorem cacheKey_data (w h : Int) (d s c : JSNum) :
    (cacheKey w h d s c).data =
      intRepr w ++ 'x' :: (intRepr h ++ ':' :: (numRender d ++ ':' ::
        (numRender s ++ ':' :: numRender c))) := by
  simp only [cacheKey, intStr, numStr, data_append]
  simp [String.mk]

/-! ## Decoding the cache key (left inverse, hence injectivity) -/

/-- Consume one expected character. -/
def expectChar (c : Char) (l : List Char) : Option (List Char) :=
  if l.head? = some c then some l.tail else none

theorem headNotDigit_cons {c : Char} {l : List Char} (h : isDigitC c = false) :
    headNotDigit (c :: l) := h

theorem headNotDigit_nil : headNotDigit [] := trivial

theorem expectChar_cons (c : Char) (l : List Char) : expectChar c (c :: l) = some l := by
  simp [expectChar]

/-- Parser for a rendered JS number (`NaN` or `num/den`). -/
def parseNumChars (l : List Char) : JSNum × List Char :=
  if l.take 3 = ['N', 'a', 'N'] then (JSNum.nan, l.drop 3)
  else
    let pi := parseIntChars l
    if pi.2.head? = some '/' then
      let pd := parseNatAux pi.2.tail 0
      (JSNum.num ((pi.1 : ℚ) / (pd.1 : ℚ)), pd.2)
    else (JSNum.nan, pi.2)

/-- Decoder for the cache-key string; succeeds exactly on well-formed keys. -/
def keyDecode (l : List Char) : Option (Int × Int × JSNum × JSNum × JSNum) :=
  (expectChar 'x' (parseIntChars l).2).bind fun r1 =>
  (expectChar ':' (parseIntChars r1).2).bind fun r2 =>
  (expectChar ':' (parseNumChars r2).2).bind fun r3 =>
  (expectChar ':' (parseNumChars r3).2).bind fun r4 =>
  if (parseNumChars r4).2 = [] then
    some ((parseIntChars l).1, (parseIntChars r1).1, (parseNumChars r2).1,
      (parseNumChars r3).1, (parseNumChars r4).1)
  else none

theorem head_natRepr_not_char (n : Nat) {rest : List Char} {c : Char}
    (hc : isDigitC c = false) : (natRepr n ++ rest).head? ≠ some c := by
  match hn : natRepr n, natRepr_ne_nil n with
  | d :: ds, _ =>
    intro h
    simp only [List.cons_append, List.head?_cons, Option.some.injEq] at h
    have : isDigitC d = true := mem_natRepr_isDigit (hn ▸ List.mem_cons_self d ds)
    rw [h, hc] at this
    exact absurd this (by simp)

theorem take3_qRender_ne {q : ℚ} {rest : List Char} :
    (qRender q ++ rest).take 3 ≠ ['N', 'a', 'N'] := by
  rw [qRender]
  by_cases hz : q.num < 0
  · rw [intRepr, if_pos hz]
    intro h
    simp only [List.cons_append, List.append_assoc, List.take_succ_cons] at h
    exact absurd (List.cons.injEq .. ▸ h).1 (by decide)
  · rw [intRepr, if_neg hz]
    match hn : natRepr q.num.natAbs, natRepr_ne_nil q.num.natAbs with
    | d :: ds, _ =>
      intro h
      simp only [List.cons_append, List.append_assoc, List.take_succ_cons,
        List.cons.injEq] at h
      have : isDigitC d = true := mem_natRepr_isDigit (hn ▸ List.mem_cons_self d ds)
      rw [h.1] at this
      exact absurd this (by decide)

theorem parseNumChars_numRender (v : JSNum) {rest : List Char}
    (hr : headNotDigit rest) : parseNumChars (numRender v ++ rest) = (v, rest) := by
  match v with
  | .nan =>
    simp [parseNumChars, numRender]
  | .num q =>
    rw [numRender, parseNumChars, if_neg take3_qRender_ne]
    have h1 : parseIntChars (qRender q ++ rest) = (q.num, '/' :: (natRepr q.den ++ rest)) := by
      rw [qRender, List.append_assoc, List.cons_append]
      exact parseIntChars_intRepr q.num (headNotDigit_cons (by decide))
    simp only [h1, List.head?_cons, if_pos rfl, List.tail_cons]
    rw [parseNatAux_natRepr _ hr]
    simp [Rat.num_div_den]

theorem keyDecode_cacheKey (w h : Int) (d s c : JSNum) :
    keyDecode (cacheKey w h d s c).data = some (w, h, d, s, c) := by
  rw [cacheKey_data, keyDecode]
  rw [parseIntChars_intRepr w (headNotDigit_cons (by decide))]
  simp only [expectChar_cons, Option.bind]
  rw [parseIntChars_intRepr h (headNotDigit_cons (by decide))]
  simp only [expectChar_cons, Option.bind]
  rw [parseNumChars_numRender d (headNotDigit_cons (by decide))]
  simp only [expectChar_cons, Option.bind]
  rw [parseNumChars_numRender s (headNotDigit_cons (by decide))]
  simp only [expectChar_cons, Option.bind]
  rw [show numRender c = numRender c ++ [] from (List.append_nil _).symm,
    parseNumChars_numRender c headNotDigit_nil]
  simp

theorem cacheKey_inj_iff (w h : Int) (d s c : JSNum) (w' h' : Int) (d' s' c' : JSNum) :
    cacheKey w h d s c = cacheKey w' h' d' s' c' ↔
      (w = w' ∧ h = h' ∧ d = d' ∧ s = s' ∧ c = c') := by
  constructor
  · intro he
    have hd : (cacheKey w h d s c).data = (cacheKey w' h' d' s' c').data := by rw [he]
    have hk := keyDecode_cacheKey w h d s c
    rw [hd, keyDecode_cacheKey] at hk
    have h2 := Option.some.inj hk
    simp only [Prod.mk.injEq] at h2
    obtain ⟨e1, e2, e3, e4, e5⟩ := h2
    exact ⟨e1.symm, e2.symm, e3.symm, e4.symm, e5.symm⟩
  · rintro ⟨rfl, rfl, rfl, rfl, rfl⟩
    rfl

/-! ## `parseFloat` and `_getNumberAttribute`

Source lines 221–224:
```
const value = this.getAttribute(name);
return value ? parseFloat(value) : defaultValue;
```
`parseFloat` is the ECMAScript built-in: skip leading whitespace, then take
the longest prefix that is a signed decimal literal (integer part, optional
fraction, optional well-formed exponent); if there is none the result is
`NaN`.  (The `Infinity` literal is not modelled; no claim involves it.) -/

/-- JS whitespace for `parseFloat`'s leading trim. -/
def isSpaceC (c : Char) : Bool :=
  c = ' ' || c = '\t' || c = '\n' || c = '\r'

/-- Value of a digit run. -/
def digitsVal (l : List Char) : Nat := List.foldl digitStep 0 l

/-- Parse an exponent part; a malformed exponent contributes factor `10^0`
(the longest valid prefix ends before the `e`). -/
def parseExp (l : List Char) : Int :=
  if l.head? = some 'e' ∨ l.head? = some 'E' then
    let r := l.tail
    let sgn : Int := if r.head? = some '-' then -1 else 1
    let r2 := if r.head? = some '-' ∨ r.head? = some '+' then r.tail else r
    let ds := r2.takeWhile isDigitC
    if ds = [] then 0 else sgn * (digitsVal ds : Int)
  else 0

/-- The syntactic part of the `parseFloat` prefix parse: sign, integer
digits, fraction digits, exponent, and whether any digits were found. -/
structure FloatParse where
  neg : Bool
  ip : List Char
  fp : List Char
  exp : Int
  ok : Bool
deriving DecidableEq

/-- Split a character list into the components of its longest decimal
literal prefix. -/
def parseFloatParts (l : List Char) : FloatParse :=
  let neg : Bool := l.head? = some '-'
  let l1 := if l.head? = some '-' ∨ l.head? = some '+' then l.tail else l
  let ip := l1.takeWhile isDigitC
  let r1 := l1.dropWhile isDigitC
  let fp := if r1.head? = some '.' then r1.tail.takeWhile isDigitC else []
  let r2 := if r1.head? = some '.' then r1.tail.dropWhile isDigitC else r1
  ⟨neg, ip, fp, parseExp r2, !(ip.isEmpty && fp.isEmpty)⟩

/-- The numeric prefix parse at the heart of `parseFloat`: `NaN` when no
digits were found, else the exact value of the decimal literal. -/
def parseFloatCore (l : List Char) : JSNum :=
  let p := parseFloatParts l
  if p.ok then
    let mant : ℚ := (digitsVal p.ip : ℚ) + (digitsVal p.fp : ℚ) / (10 : ℚ) ^ p.fp.length
    let v : ℚ := mant * (10 : ℚ) ^ p.exp
    JSNum.num (if p.neg then -v else v)
  else JSNum.nan

/-- The ECMAScript `parseFloat` built-in (model). -/
def parseFloat (s : String) : JSNum :=
  parseFloatCore (s.data.dropWhile isSpaceC)

/-- `_getNumberAttribute`: `value ? parseFloat(value) : defaultValue` —
a missing attribute and the empty string (the two falsy cases) resolve to
the default, every other string goes through `parseFloat`. -/
def getNumberAttribute (value : Option String) (defaultValue : ℚ) : JSNum :=
  match value with
  | none => JSNum.num defaultValue
  | some s => if s = "" then JSNum.num defaultValue else parseFloat s

/-! ## `Math.floor` / `Math.ceil` / `Math.round` on exact rationals -/

/-- `Math.floor` (computable, via `Rat.floor`). -/
def jsFloor (q : ℚ) : Int := Rat.floor q

/-- `Math.ceil`. -/
def jsCeil (q : ℚ) : Int := -Rat.floor (-q)

/-- `Math.round`: round half up. -/
def jsRound (q : ℚ) : Int := jsFloor (q + 1 / 2)

theorem jsFloor_eq_floor (q : ℚ) : jsFloor q = ⌊q⌋ := by
  rw [jsFloor, Rat.floor_def', ← Rat.floor_def]

theorem jsCeil_eq_ceil (q : ℚ) : jsCeil q = ⌈q⌉ := by
  rw [jsCeil, Rat.floor_def', ← Rat.floor_def, Int.floor_neg, neg_neg]

/-- `⌊c - x⌋ = c - ⌈x⌉` for an integer constant `c`: the trailing gradient
stop mirrors the leading one. -/
theorem jsFloor_const_sub (c : Int) (x : ℚ) : jsFloor ((c : ℚ) - x) = c - jsCeil x := by
  rw [jsFloor_eq_floor, jsCeil_eq_ceil, sub_eq_add_neg, Int.floor_int_add,
    Int.floor_neg, sub_eq_add_neg]

/-! ## `_getDisplacementMap` (source lines 227–286)

The SVG markup is modelled structurally: one record per element, each numeric
attribute computed exactly as the template literal computes it.  The `radius`
argument is the fixed `radius = 16` of `_updateFilter`; note the two linear
gradients are inset using `radius`, not `depth` — `depth` positions and blurs
only the inner rounded rectangle. -/

/-- The vertical gradient `Y-…` (green channel): `x1=0 x2=0`,
`y1 = ceil(radius/height*15) %`, `y2 = floor(100 - radius/height*15) %`. -/
structure GradientY where
  y1Pct : Int
  y2Pct : Int
deriving DecidableEq

/-- The horizontal gradient `X-…` (red channel): `y1=0 y2=0`,
`x1 = ceil(radius/width*15) %`, `x2 = floor(100 - radius/width*15) %`. -/
structure GradientX where
  x1Pct : Int
  x2Pct : Int
deriving DecidableEq

/-- The inner rounded rectangle: inset by `depth`, size reduced by
`2*depth`, corner radius `radius`, blurred by `depth` px. -/
structure InnerRect where
  x : JSNum
  y : JSNum
  w : JSNum
  h : JSNum
  rx : ℚ
  blurPx : JSNum
deriving DecidableEq

/-- The displacement-map SVG of `_getDisplacementMap`. -/
structure MapSpec where
  height : Int
  width : Int
  gradY : GradientY
  gradX : GradientX
  inner : InnerRect
deriving DecidableEq

/-- `_getDisplacementMap({height, width, radius, depth})`. -/
def getDisplacementMap (height width : Int) (radius : ℚ) (depth : JSNum) : MapSpec :=
  ⟨height, width,
    ⟨jsCeil (radius / (height : ℚ) * 15), jsFloor (100 - radius / (height : ℚ) * 15)⟩,
    ⟨jsCeil (radius / (width : ℚ) * 15), jsFloor (100 - radius / (width : ℚ) * 15)⟩,
    ⟨depth, depth,
      jsSub (.num (width : ℚ)) (jsMul (.num 2) depth),
      jsSub (.num (height : ℚ)) (jsMul (.num 2) depth),
      radius, depth⟩⟩

/-! ## `_getDisplacementFilter` (source lines 289–352) -/

/-- An RGBA pixel value. -/
structure RGBA where
  r : ℚ
  g : ℚ
  b : ℚ
  a : ℚ
deriving DecidableEq

/-- Apply a 4×5 `feColorMatrix` matrix (row-major, 20 entries) to a pixel. -/
def applyColorMatrix (m : List ℚ) (p : RGBA) : RGBA :=
  match m with
  | [a1, a2, a3, a4, a5, b1, b2, b3, b4, b5,
     c1, c2, c3, c4, c5, d1, d2, d3, d4, d5] =>
    ⟨a1 * p.r + a2 * p.g + a3 * p.b + a4 * p.a + a5,
     b1 * p.r + b2 * p.g + b3 * p.b + b4 * p.a + b5,
     c1 * p.r + c2 * p.g + c3 * p.b + c4 * p.a + c5,
     d1 * p.r + d2 * p.g + d3 * p.b + d4 * p.a + d5⟩
  | _ => p

/-- The matrix of the first `feColorMatrix` (isolates red, keeps alpha). -/
def redMatrix : List ℚ :=
  [1, 0, 0, 0, 0,  0, 0, 0, 0, 0,  0, 0, 0, 0, 0,  0, 0, 0, 1, 0]

/-- The matrix of the second `feColorMatrix` (isolates green, keeps alpha). -/
def greenMatrix : List ℚ :=
  [0, 0, 0, 0, 0,  0, 1, 0, 0, 0,  0, 0, 0, 0, 0,  0, 0, 0, 1, 0]

/-- The matrix of the third `feColorMatrix` (isolates blue, keeps alpha). -/
def blueMatrix : List ℚ :=
  [0, 0, 0, 0, 0,  0, 0, 0, 0, 0,  0, 0, 1, 0, 0,  0, 0, 0, 1, 0]

/-- One SVG filter primitive of the `displace-…` filter, in document order. -/
inductive FilterPrimitive where
  | feImage (map : MapSpec) (result : String)
  | feDisplacementMap (inSrc : Option String) (in2 : String) (scale : JSNum)
      (xChannel yChannel : String)
  | feColorMatrix (values : List ℚ) (result : String)
  | feBlend (inSrc : Option String) (in2 : String) (mode : String)
deriving DecidableEq

/-- The filter document of `_getDisplacementFilter`. -/
structure FilterSpec where
  height : Int
  width : Int
  primitives : List FilterPrimitive
deriving DecidableEq

/-- `_getDisplacementFilter({height, width, radius, depth, strength,
chromaticAberration})`, primitive for primitive in source order. -/
def getDisplacementFilter (height width : Int) (radius : ℚ)
    (depth strength chromaticAberration : JSNum) : FilterSpec :=
  ⟨height, width,
    [.feImage (getDisplacementMap height width radius depth) "displacementMap",
     .feDisplacementMap (some "SourceGraphic") "displacementMap"
       (jsAdd strength (jsMul chromaticAberration (.num 2))) "R" "G",
     .feColorMatrix redMatrix "displacedR",
     .feDisplacementMap (some "SourceGraphic") "displacementMap"
       (jsAdd strength chromaticAberration) "R" "G",
     .feColorMatrix greenMatrix "displacedG",
     .feDisplacementMap (some "SourceGraphic") "displacementMap"
       strength "R" "G",
     .feColorMatrix blueMatrix "displacedB",
     .feBlend (some "displacedR") "displacedG" "screen",
     .feBlend none "displacedB" "screen"]⟩

/-- The displacement scales of a filter, in pass order. -/
def displacementScales (f : FilterSpec) : List JSNum :=
  f.primitives.filterMap fun p =>
    match p with
    | .feDisplacementMap _ _ s _ _ => some s
    | _ => none

/-- The color matrices of a filter, in pass order. -/
def colorMatrices (f : FilterSpec) : List (List ℚ) :=
  f.primitives.filterMap fun p =>
    match p with
    | .feColorMatrix m _ => some m
    | _ => none

/-- The blend modes of a filter, in document order. -/
def blendModes (f : FilterSpec) : List String :=
  f.primitives.filterMap fun p =>
    match p with
    | .feBlend _ _ m => some m
    | _ => none

/-- The `screen` blend of two channel values. -/
def screenBlend (x y : ℚ) : ℚ := x + y - x * y

/-! ## `_updateFilter` (source lines 364–416)

One update cycle as a pure state transition.  Inputs: the `force` flag, the
measured bounding box, the four raw attribute strings, the memoized
capability flag; state: `_prev` (`{}` initially, `{key, blur}` after a cycle
that passes the cache check).  Outputs: the ordered list of style-channel
writes (`--lg-blur` and `--lg-filter`; the out-of-scope interactive
opacity/scale properties are not tracked), the new `_prev`, whether the
regeneration path past the cache check ran, and the filter document it
built, if any.  The zero-size guard `if (!rect.width || !rect.height)
return;` tests the raw measured values for (JS) falsiness, i.e. against
exact zero, before any rounding. -/

/-- The measured bounding box (`getBoundingClientRect`). -/
structure Rect where
  width : ℚ
  height : ℚ
deriving DecidableEq

/-- The four numeric configuration attributes, as raw attribute values
(`none` = attribute absent). -/
structure Attrs where
  depth : Option String
  strength : Option String
  chromatic : Option String
  blur : Option String

/-- The `_prev` instance state. -/
structure PrevState where
  key : Option String
  blur : Option JSNum
deriving DecidableEq

/-- A published filter reference: the literal `none` or the data-URL of a
filter document. -/
inductive FilterRef where
  | noneRef : FilterRef
  | url : FilterSpec → FilterRef
deriving DecidableEq

/-- One write to the external style channel. -/
inductive StyleWrite where
  | blur (v : JSNum)
  | filter (v : FilterRef)
deriving DecidableEq

/-- The observable outcome of one `_updateFilter` cycle. -/
structure UpdateResult where
  writes : List StyleWrite
  prev : PrevState
  regenerated : Bool
  built : Option FilterSpec
deriving DecidableEq

/-- JS `this._prev.blur !== blur` — `undefined !== x` is true, and so is
`NaN !== NaN`. -/
def prevBlurDiffers (prevBlur : Option JSNum) (blur : JSNum) : Bool :=
  match prevBlur with
  | none => true
  | some pb => jsNeq pb blur

/-- One `_updateFilter(force)` cycle. -/
def updateFilter (force : Bool) (rect : Rect) (attrs : Attrs)
    (advSupported : Bool) (prev : PrevState) : UpdateResult :=
  if rect.width = 0 ∨ rect.height = 0 then ⟨[], prev, false, none⟩
  else
    let height : Int := jsRound rect.height
    let width : Int := jsRound rect.width
    let radius : ℚ := 16
    let depth := getNumberAttribute attrs.depth 10
    let strength := getNumberAttribute attrs.strength 100
    let chromaticAberration := getNumberAttribute attrs.chromatic 0
    let blur := getNumberAttribute attrs.blur 2
    let blurWrites :=
      if prevBlurDiffers prev.blur blur then [StyleWrite.blur blur] else []
    let key := cacheKey width height depth strength chromaticAberration
    if force = false ∧ prev.key = some key then ⟨blurWrites, prev, false, none⟩
    else
      let prev' : PrevState := ⟨some key, some blur⟩
      if advSupported = true ∧
          (jsGt strength (.num 0) = true ∨ jsGt chromaticAberration (.num 0) = true) then
        let f := getDisplacementFilter height width radius depth strength
          chromaticAberration
        ⟨blurWrites ++ [StyleWrite.filter (FilterRef.url f)], prev', true, some f⟩
      else
        ⟨blurWrites ++ [StyleWrite.filter FilterRef.noneRef], prev', true, none⟩

/-! ## The rAF resize coalescer (source lines 61–72) and
`attributeChangedCallback` (source lines 88–96)

The `ResizeObserver` callback drops a signal when `_pending` is already
set; otherwise it sets `_pending` and schedules one `requestAnimationFrame`
callback.  Each scheduled callback, run at the frame boundary, clears
`_pending` and performs one recompute.  An attribute edit of one of the four
numeric attributes calls `_updateFilter()` immediately and synchronously. -/

/-- Coalescer state: `_pending`, the rAF callbacks scheduled for the next
frame boundary, and the recomputes already run synchronously. -/
structure CoalescerState where
  pending : Bool
  queued : Nat
  immediate : Nat
deriving DecidableEq

/-- One continuous-resize signal (the `ResizeObserver` callback body). -/
def onResizeSignal (s : CoalescerState) : CoalescerState :=
  if s.pending then s else ⟨true, s.queued + 1, s.immediate⟩

/-- The frame boundary: every scheduled callback clears `_pending` and runs
one recompute; returns the new state and the number of recomputes run in
the frame. -/
def runFrame (s : CoalescerState) : CoalescerState × Nat :=
  (⟨false, 0, s.immediate⟩, s.queued)

/-- `attributeChangedCallback(name, …)`: a discrete edit of one of the four
numeric attributes runs `_updateFilter()` immediately, bypassing the
coalescer; other observed attributes do not recompute the filter. -/
def onAttributeChanged (name : String) (s : CoalescerState) : CoalescerState :=
  if name = "strength" ∨ name = "depth" ∨ name = "blur" ∨ name = "chromatic" then
    ⟨s.pending, s.queued, s.immediate + 1⟩
  else s

/-! ## The per-process capability probe (constructor lines 44–48,
`_supportsAdvancedFilters` lines 354–362) -/

/-- The environment's answer to `CSS.supports('backdrop-filter',
'url(#x)')`: a boolean, or an exception. -/
inductive ProbeEnv where
  | ok : Bool → ProbeEnv
  | throws : ProbeEnv
deriving DecidableEq

/-- `_supportsAdvancedFilters()`: the probe inside `try`/`catch`; an
exception resolves to `false` and never propagates. -/
def supportsAdvancedFilters : ProbeEnv → Bool
  | .ok b => b
  | .throws => false

/-- The class-level memo `LiquidGlass._advSupported` (`null` initially). -/
structure ProcessState where
  advSupported : Option Bool
deriving DecidableEq

/-- One constructor run: probe only when the class-level memo is still
unset; every instance copies the memo.  Returns the new process state, the
instance's `_advSupported`, and whether the probe ran. -/
def construct (env : ProbeEnv) (st : ProcessState) :
    ProcessState × Bool × Bool :=
  match st.advSupported with
  | none =>
    let v := supportsAdvancedFilters env
    (⟨some v⟩, v, true)
  | some b => (st, b, false)

/-- `n` consecutive constructor runs: final process state, the instances'
flags in order, and the number of probe executions. -/
def constructN (env : ProbeEnv) : Nat → ProcessState → ProcessState × List Bool × Nat
  | 0, st => (st, [], 0)
  | n + 1, st =>
    let r := construct env st
    let rest := constructN env n r.1
    (rest.1, r.2.1 :: rest.2.1, (if r.2.2 then 1 else 0) + rest.2.2)

/-! ## Evaluation helpers for concrete inputs -/

theorem parseFloat_digit5 : parseFloat "5" = JSNum.num 5 := by
  rw [parseFloat, parseFloatCore,
    show parseFloatParts ("5".data.dropWhile isSpaceC) = ⟨false, ['5'], [], 0, true⟩ by decide]
  norm_num [show digitsVal ['5'] = 5 by decide, show digitsVal ([] : List Char) = 0 by decide]

theorem parseFloat_digit0 : parseFloat "0" = JSNum.num 0 := by
  rw [parseFloat, parseFloatCore,
    show parseFloatParts ("0".data.dropWhile isSpaceC) = ⟨false, ['0'], [], 0, true⟩ by decide]
  norm_num [show digitsVal ['0'] = 0 by decide, show digitsVal ([] : List Char) = 0 by decide]

theorem jsRound_pos_of_half_le {q : ℚ} (h : 0 < jsRound q) : 0 < q := by
  rw [jsRound, jsFloor_eq_floor] at h
  have h1 : (1 : ℤ) ≤ ⌊q + 1 / 2⌋ := h
  have h2 : ((1 : ℤ) : ℚ) ≤ q + 1 / 2 := Int.le_floor.mp h1
  push_cast at h2
  linarith

theorem jsGt_eq_false_of_jsLe {a : JSNum} (h : jsLe a (.num 0) = true) :
    jsGt a (.num 0) = false := by
  match a with
  | .nan => simp [jsLe] at h
  | .num q =>
    simp only [jsLe, decide_eq_true_eq] at h
    simp only [jsGt, decide_eq_false_iff_not]
    exact not_lt.mpr h

/-! ## Claim theorems -/

/-- C2: the CacheKey construction is collision-free on the five
regeneration-relevant fields: two parameter tuples produce the same key
exactly when they agree in every field, so identical tuples always give
identical keys and tuples differing in any one field (in particular in
exactly one) give different keys. -/
theorem cacheKey_collision_free (w h : Int) (d s c : JSNum)
    (w' h' : Int) (d' s' c' : JSNum) :
    cacheKey w h d s c = cacheKey w' h' d' s' c' ↔
      (w = w' ∧ h = h' ∧ d = d' ∧ s = s' ∧ c = c') :=
  cacheKey_inj_iff w h d s c w' h' d' s' c'

/-- C3 (counterexample): at `depth = 10`, `width = 200`, `height = 100`,
the vertical gradient of the displacement map is inset by 3%, not the
`ceil(depth/height * 15%) = 2%` the claim states — the source insets the
gradients by `radius` (the fixed 16), not by `depth`. -/
theorem gradient_inset_uses_radius_not_depth :
    (getDisplacementMap 100 200 16 (JSNum.num 10)).gradY.y1Pct = 3 ∧
    jsCeil ((10 : ℚ) / 100 * 15) = 2 ∧
    (getDisplacementMap 100 200 16 (JSNum.num 10)).gradY.y1Pct ≠
      jsCeil ((10 : ℚ) / 100 * 15) := by
  have h1 : (getDisplacementMap 100 200 16 (JSNum.num 10)).gradY.y1Pct = 3 := by
    rw [getDisplacementMap]
    show jsCeil ((16 : ℚ) / ((100 : Int) : ℚ) * 15) = 3
    rw [jsCeil]
    norm_num [Rat.floor_def']
  have h2 : jsCeil ((10 : ℚ) / 100 * 15) = 2 := by
    rw [jsCeil]
    norm_num [Rat.floor_def']
  refine ⟨h1, h2, ?_⟩
  rw [h1, h2]
  decide

/-- C3 (amended): each axis gradient of the displacement map is inset by
`ceil(radius/extent * 15)%` on the leading side and the mirrored
`floor(100 - radius/extent * 15)% = 100 - ceil(radius/extent * 15)%` on
the trailing side, where `radius` is the fixed corner radius 16 and
`extent` the relevant dimension — independent of `depth`; at
`width = 200, height = 100` the vertical inset is 3% and the horizontal
inset 2%. -/
theorem gradient_insets_radius_formula (height width : Int) (radius : ℚ)
    (depth : JSNum) :
    (getDisplacementMap height width radius depth).gradY.y1Pct =
      jsCeil (radius / (height : ℚ) * 15) ∧
    (getDisplacementMap height width radius depth).gradY.y2Pct =
      100 - jsCeil (radius / (height : ℚ) * 15) ∧
    (getDisplacementMap height width radius depth).gradX.x1Pct =
      jsCeil (radius / (width : ℚ) * 15) ∧
    (getDisplacementMap height width radius depth).gradX.x2Pct =
      100 - jsCeil (radius / (width : ℚ) * 15) ∧
    (getDisplacementMap 100 200 16 depth).gradY.y1Pct = 3 ∧
    (getDisplacementMap 100 200 16 depth).gradX.x1Pct = 2 := by
  refine ⟨rfl, ?_, rfl, ?_, ?_, ?_⟩
  · show jsFloor (100 - radius / (height : ℚ) * 15) = _
    have := jsFloor_const_sub 100 (radius / (height : ℚ) * 15)
    rw [show ((100 : Int) : ℚ) = (100 : ℚ) by norm_num] at this
    rw [this]
  · show jsFloor (100 - radius / (width : ℚ) * 15) = _
    have := jsFloor_const_sub 100 (radius / (width : ℚ) * 15)
    rw [show ((100 : Int) : ℚ) = (100 : ℚ) by norm_num] at this
    rw [this]
  · show jsCeil ((16 : ℚ) / ((100 : Int) : ℚ) * 15) = 3
    rw [jsCeil]; norm_num [Rat.floor_def']
  · show jsCeil ((16 : ℚ) / ((200 : Int) : ℚ) * 15) = 2
    rw [jsCeil]; norm_num [Rat.floor_def']

/-- C4 (counterexample): the attribute value `"abc"` is unparseable, yet
`_getNumberAttribute("…", 10)` resolves it to `NaN` (via
`parseFloat("abc")`), not to the documented default 10 — the default is
substituted only for missing/empty (falsy) values. -/
theorem unparseable_attribute_resolves_to_nan :
    getNumberAttribute (some "abc") 10 = JSNum.nan ∧
    JSNum.nan ≠ JSNum.num 10 := by
  constructor
  · decide
  · decide

/-- C4 (amended): a missing attribute and the empty string resolve to the
documented default; every other value resolves to `parseFloat` of it —
which is `NaN`, not the default, for unparseable non-empty input — and
resolution is a total function (it never fails). -/
theorem attribute_fallback_on_missing_or_empty (v : Option String) (d : ℚ) :
    (v = none → getNumberAttribute v d = JSNum.num d) ∧
    (v = some "" → getNumberAttribute v d = JSNum.num d) ∧
    (∀ s, v = some s → s ≠ "" → getNumberAttribute v d = parseFloat s) := by
  refine ⟨?_, ?_, ?_⟩
  · rintro rfl; rfl
  · rintro rfl; rfl
  · rintro s rfl hs
    rw [getNumberAttribute, if_neg hs]

theorem attribute_fallback_on_missing_or_empty_witness :
    getNumberAttribute none 10 = JSNum.num 10 ∧
    getNumberAttribute (some "") 10 = JSNum.num 10 ∧
    getNumberAttribute (some "abc") 10 = parseFloat "abc" :=
  ⟨(attribute_fallback_on_missing_or_empty none 10).1 rfl,
   (attribute_fallback_on_missing_or_empty (some "") 10).2.1 rfl,
   (attribute_fallback_on_missing_or_empty (some "abc") 10).2.2 "abc" rfl
     (by decide)⟩

/-- C8: the assembled filter applies exactly three displacement passes, at
scales `strength + chromaticAberration*2`, `strength + chromaticAberration`
and `strength` (for rational values `strength + 2·chromaticAberration`
etc.), isolates the passes into the red, green and blue channels through
channel-selection matrices that preserve alpha, and recombines them with
two `screen` (lightening) blends. -/
theorem filter_three_passes_chromatic_scales (height width : Int) (radius : ℚ)
    (depth strength chromaticAberration : JSNum) :
    displacementScales
        (getDisplacementFilter height width radius depth strength chromaticAberration) =
      [jsAdd strength (jsMul chromaticAberration (.num 2)),
        jsAdd strength chromaticAberration, strength] ∧
    (∀ q r : ℚ, jsAdd (.num q) (jsMul (.num r) (.num 2)) = .num (q + 2 * r)) ∧
    colorMatrices
        (getDisplacementFilter height width radius depth strength chromaticAberration) =
      [redMatrix, greenMatrix, blueMatrix] ∧
    (∀ p : RGBA, applyColorMatrix redMatrix p = ⟨p.r, 0, 0, p.a⟩ ∧
      applyColorMatrix greenMatrix p = ⟨0, p.g, 0, p.a⟩ ∧
      applyColorMatrix blueMatrix p = ⟨0, 0, p.b, p.a⟩) ∧
    blendModes
        (getDisplacementFilter height width radius depth strength chromaticAberration) =
      ["screen", "screen"] ∧
    (∀ x y : ℚ, 0 ≤ x → x ≤ 1 → 0 ≤ y → y ≤ 1 →
      x ≤ screenBlend x y ∧ y ≤ screenBlend x y) := by
  refine ⟨rfl, ?_, rfl, ?_, rfl, ?_⟩
  · intro q r
    rw [jsMul, jsAdd]
    norm_num [mul_comm]
  · intro p
    refine ⟨?_, ?_, ?_⟩ <;>
      · first
        | rw [redMatrix] | rw [greenMatrix] | rw [blueMatrix]
        all_goals
          simp only [applyColorMatrix, RGBA.mk.injEq]
          exact ⟨by ring, by ring, by ring, by ring⟩
  · intro x y hx0 hx1 hy0 hy1
    constructor
    · rw [screenBlend]
      nlinarith [mul_nonneg hy0 (sub_nonneg.mpr hx1)]
    · rw [screenBlend]
      nlinarith [mul_nonneg hx0 (sub_nonneg.mpr hy1)]

theorem filter_three_passes_chromatic_scales_witness :
    (1 : ℚ) / 2 ≤ screenBlend (1 / 2) (1 / 2) ∧
    displacementScales (getDisplacementFilter 100 200 16 (.num 10) (.num 100) (.num 0)) =
      [jsAdd (.num 100) (jsMul (.num 0) (.num 2)), jsAdd (.num 100) (.num 0), .num 100] :=
  ⟨((filter_three_passes_chromatic_scales 100 200 16 (.num 10) (.num 100)
      (.num 0)).2.2.2.2.2 (1 / 2) (1 / 2) (by norm_num) (by norm_num) (by norm_num)
      (by norm_num)).1,
   (filter_three_passes_chromatic_scales 100 200 16 (.num 10) (.num 100) (.num 0)).1⟩

theorem onResizeSignal_iterate_fixed (i : Nat) :
    ∀ n, onResizeSignal^[n] ⟨true, 1, i⟩ = ⟨true, 1, i⟩ := by
  intro n
  induction n with
  | zero => rfl
  | succ n ih =>
    rw [Function.iterate_succ_apply, show onResizeSignal ⟨true, 1, i⟩ = ⟨true, 1, i⟩ from rfl, ih]

/-- C9: any positive number of continuous-resize signals inside one frame
leaves exactly one scheduled recompute — signals arriving while one is
already scheduled are dropped — so the frame boundary runs exactly one
recompute and resets the coalescer; a discrete edit of one of the four
numeric attributes runs a recompute immediately, leaving the coalescer
untouched, and an edit of any other observed attribute (e.g. `href`) runs
none. -/
theorem resize_signals_coalesce_to_one_recompute (n i : Nat) (s : CoalescerState) :
    (runFrame (onResizeSignal^[n + 1] ⟨false, 0, i⟩)).2 = 1 ∧
    (onResizeSignal^[n + 1] ⟨false, 0, i⟩).queued = 1 ∧
    (runFrame (onResizeSignal^[n + 1] ⟨false, 0, i⟩)).1 = ⟨false, 0, i⟩ ∧
    onAttributeChanged "strength" s = ⟨s.pending, s.queued, s.immediate + 1⟩ ∧
    onAttributeChanged "depth" s = ⟨s.pending, s.queued, s.immediate + 1⟩ ∧
    onAttributeChanged "blur" s = ⟨s.pending, s.queued, s.immediate + 1⟩ ∧
    onAttributeChanged "chromatic" s = ⟨s.pending, s.queued, s.immediate + 1⟩ ∧
    onAttributeChanged "href" s = s := by
  have hit : onResizeSignal^[n + 1] ⟨false, 0, i⟩ = ⟨true, 1, i⟩ := by
    rw [Function.iterate_succ_apply,
      show onResizeSignal ⟨false, 0, i⟩ = ⟨true, 1, i⟩ from rfl,
      onResizeSignal_iterate_fixed]
  refine ⟨?_, ?_, ?_, ?_, ?_, ?_, ?_, ?_⟩
  · rw [hit]; rfl
  · rw [hit]
  · rw [hit]; rfl
  · rw [onAttributeChanged, if_pos (by decide)]
  · rw [onAttributeChanged, if_pos (by decide)]
  · rw [onAttributeChanged, if_pos (by decide)]
  · rw [onAttributeChanged, if_pos (by decide)]
  · rw [onAttributeChanged, if_neg (by decide)]

theorem constructN_some (env : ProbeEnv) (b : Bool) :
    ∀ n, constructN env n ⟨some b⟩ = (⟨some b⟩, List.replicate n b, 0) := by
  intro n
  induction n with
  | zero => rfl
  | succ n ih =>
    rw [constructN]
    simp only [construct, ih]
    rfl

/-- C10: the capability probe runs exactly once for the first constructed
instance and never again — the class-level memo stays at its first value —
so every instance in a run observes the same flag, and an environment whose
probe throws (or answers `false`) yields `false` for all of them without
propagating an error. -/
theorem capability_probe_at_most_once (env : ProbeEnv) (n : Nat) (b : Bool) :
    constructN env n ⟨none⟩ =
      ((if n = 0 then (⟨none⟩ : ProcessState)
          else ⟨some (supportsAdvancedFilters env)⟩),
        List.replicate n (supportsAdvancedFilters env), min n 1) ∧
    constructN env n ⟨some b⟩ = (⟨some b⟩, List.replicate n b, 0) ∧
    supportsAdvancedFilters .throws = false := by
  refine ⟨?_, constructN_some env b n, rfl⟩
  match n with
  | 0 => rfl
  | m + 1 =>
    rw [constructN]
    simp only [construct, constructN_some]
    simp [List.replicate, Nat.min_def]

theorem updateFilter_guard_ne {rect : Rect}
    (hw : 0 < jsRound rect.width) (hh : 0 < jsRound rect.height) :
    ¬(rect.width = 0 ∨ rect.height = 0) := by
  rintro (h | h)
  · exact absurd h (jsRound_pos_of_half_le hw).ne'
  · exact absurd h (jsRound_pos_of_half_le hh).ne'


theorem updateFilter_cache_hit (force : Bool) (rect : Rect) (attrs : Attrs)
    (advSupported : Bool) (prev : PrevState)
    (hg : ¬(rect.width = 0 ∨ rect.height = 0))
    (hcache : force = false ∧ prev.key = some (cacheKey (jsRound rect.width)
      (jsRound rect.height) (getNumberAttribute attrs.depth 10)
      (getNumberAttribute attrs.strength 100)
      (getNumberAttribute attrs.chromatic 0))) :
    updateFilter force rect attrs advSupported prev =
      ⟨if prevBlurDiffers prev.blur (getNumberAttribute attrs.blur 2) = true
          then [StyleWrite.blur (getNumberAttribute attrs.blur 2)] else [],
        prev, false, none⟩ := by
  simp only [updateFilter, if_neg hg]
  rw [if_pos hcache]

theorem updateFilter_regen_of_not_hit (force : Bool) (rect : Rect) (attrs : Attrs)
    (advSupported : Bool) (prev : PrevState)
    (hg : ¬(rect.width = 0 ∨ rect.height = 0))
    (hnc : ¬(force = false ∧ prev.key = some (cacheKey (jsRound rect.width)
      (jsRound rect.height) (getNumberAttribute attrs.depth 10)
      (getNumberAttribute attrs.strength 100)
      (getNumberAttribute attrs.chromatic 0)))) :
    (updateFilter force rect attrs advSupported prev).regenerated = true ∧
    (updateFilter force rect attrs advSupported prev).prev =
      ⟨some (cacheKey (jsRound rect.width) (jsRound rect.height)
        (getNumberAttribute attrs.depth 10) (getNumberAttribute attrs.strength 100)
        (getNumberAttribute attrs.chromatic 0)),
        some (getNumberAttribute attrs.blur 2)⟩ := by
  simp only [updateFilter, if_neg hg]
  rw [if_neg hnc]
  by_cases hadv : (advSupported = true ∧
      (jsGt (getNumberAttribute attrs.strength 100) (JSNum.num 0) = true ∨
        jsGt (getNumberAttribute attrs.chromatic 0) (JSNum.num 0) = true))
  · rw [if_pos hadv]
    exact ⟨rfl, rfl⟩
  · rw [if_neg hadv]
    exact ⟨rfl, rfl⟩

theorem updateFilter_prev_key (force : Bool) (rect : Rect) (attrs : Attrs)
    (advSupported : Bool) (prev : PrevState)
    (hg : ¬(rect.width = 0 ∨ rect.height = 0)) :
    (updateFilter force rect attrs advSupported prev).prev.key =
      some (cacheKey (jsRound rect.width) (jsRound rect.height)
        (getNumberAttribute attrs.depth 10) (getNumberAttribute attrs.strength 100)
        (getNumberAttribute attrs.chromatic 0)) := by
  by_cases hcache : (force = false ∧ prev.key = some (cacheKey (jsRound rect.width)
      (jsRound rect.height) (getNumberAttribute attrs.depth 10)
      (getNumberAttribute attrs.strength 100)
      (getNumberAttribute attrs.chromatic 0)))
  · rw [updateFilter_cache_hit force rect attrs advSupported prev hg hcache]
    exact hcache.2
  · rw [(updateFilter_regen_of_not_hit force rect attrs advSupported prev hg hcache).2]

/-- C1: for an update cycle whose rounded dimensions are positive, the
regeneration path past the cache check (rebuilding the filter document
where applicable and republishing the filter reference) runs exactly when
the forced-refresh flag is set or the cache key built from
`(width, height, depth, strength, chromaticAberration)` differs from the
stored key; in particular an unforced second call with identical inputs
skips it, and a forced call with an unchanged key still runs it. -/
theorem regeneration_iff_forced_or_key_changed (force : Bool) (rect : Rect)
    (attrs : Attrs) (advSupported : Bool) (prev : PrevState)
    (hw : 0 < jsRound rect.width) (hh : 0 < jsRound rect.height) :
    ((updateFilter force rect attrs advSupported prev).regenerated = true ↔
      (force = true ∨ prev.key ≠ some (cacheKey (jsRound rect.width)
        (jsRound rect.height) (getNumberAttribute attrs.depth 10)
        (getNumberAttribute attrs.strength 100)
        (getNumberAttribute attrs.chromatic 0)))) ∧
    (updateFilter false rect attrs advSupported
      (updateFilter force rect attrs advSupported prev).prev).regenerated = false ∧
    (updateFilter true rect attrs advSupported
      (updateFilter force rect attrs advSupported prev).prev).regenerated = true := by
  have hg := updateFilter_guard_ne hw hh
  have hPk := updateFilter_prev_key force rect attrs advSupported prev hg
  refine ⟨?_, ?_, ?_⟩
  · by_cases hcache : (force = false ∧ prev.key = some (cacheKey (jsRound rect.width)
        (jsRound rect.height) (getNumberAttribute attrs.depth 10)
        (getNumberAttribute attrs.strength 100)
        (getNumberAttribute attrs.chromatic 0)))
    · rw [updateFilter_cache_hit force rect attrs advSupported prev hg hcache]
      simp [hcache.1, hcache.2]
    · rw [(updateFilter_regen_of_not_hit force rect attrs advSupported prev hg hcache).1]
      simp only [true_iff]
      cases force with
      | true => exact Or.inl rfl
      | false => exact Or.inr fun hk => hcache ⟨rfl, hk⟩
  · rw [(updateFilter_cache_hit false rect attrs advSupported
      (updateFilter force rect attrs advSupported prev).prev hg ⟨rfl, hPk⟩)]
  · exact (updateFilter_regen_of_not_hit true rect attrs advSupported
      (updateFilter force rect attrs advSupported prev).prev hg
      (fun hc => Bool.noConfusion hc.1)).1

theorem regeneration_iff_forced_or_key_changed_witness :
    0 < jsRound (200 : ℚ) ∧
    (updateFilter false ⟨200, 100⟩ ⟨none, none, none, none⟩ true
      ⟨none, none⟩).regenerated = true ∧
    (updateFilter false ⟨200, 100⟩ ⟨none, none, none, none⟩ true
      (updateFilter false ⟨200, 100⟩ ⟨none, none, none, none⟩ true
        ⟨none, none⟩).prev).regenerated = false ∧
    (updateFilter true ⟨200, 100⟩ ⟨none, none, none, none⟩ true
      (updateFilter false ⟨200, 100⟩ ⟨none, none, none, none⟩ true
        ⟨none, none⟩).prev).regenerated = true := by
  have h200 : 0 < jsRound (200 : ℚ) := by
    rw [jsRound, jsFloor]; norm_num [Rat.floor_def']
  have h100 : 0 < jsRound (100 : ℚ) := by
    rw [jsRound, jsFloor]; norm_num [Rat.floor_def']
  have main := regeneration_iff_forced_or_key_changed false ⟨200, 100⟩
    ⟨none, none, none, none⟩ true ⟨none, none⟩ h200 h100
  exact ⟨h200, main.1.mpr (Or.inr fun hc => Option.noConfusion hc),
    main.2.1, main.2.2⟩

/-- C5 (counterexample): a measured width of 0.3px rounds to 0, yet the
cycle does not abort — the guard tests the raw measured values for
falsiness, not the rounded ones — so style-channel writes occur and the
instance state is mutated. -/
theorem subpixel_width_rounds_to_zero_still_writes :
    jsRound ((3 : ℚ) / 10) = 0 ∧
    (updateFilter false ⟨3 / 10, 100⟩ ⟨none, none, none, none⟩ true
      ⟨none, none⟩).writes ≠ [] ∧
    (updateFilter false ⟨3 / 10, 100⟩ ⟨none, none, none, none⟩ true
      ⟨none, none⟩).prev ≠ ⟨none, none⟩ := by
  refine ⟨?_, ?_, ?_⟩
  · rw [jsRound, jsFloor]; norm_num [Rat.floor_def']
  · rw [updateFilter]
    norm_num [getNumberAttribute, prevBlurDiffers, jsGt]
    rw [if_neg (fun h => Option.noConfusion h)]
    simp
  · rw [updateFilter]
    norm_num [getNumberAttribute, prevBlurDiffers, jsGt]
    rw [if_neg (fun h => Option.noConfusion h)]
    intro hc
    exact Option.noConfusion (congrArg PrevState.key hc)

/-- C5 (amended): the cycle aborts — no style-channel write, no state
mutation, no regeneration — exactly when a raw measured dimension is zero
(JS-falsy) before rounding; a nonzero dimension that merely rounds to zero
does not abort. -/
theorem updateFilter_aborts_on_zero_dimension (force : Bool) (rect : Rect)
    (attrs : Attrs) (advSupported : Bool) (prev : PrevState)
    (h : rect.width = 0 ∨ rect.height = 0) :
    updateFilter force rect attrs advSupported prev = ⟨[], prev, false, none⟩ := by
  rw [updateFilter, if_pos h]

theorem updateFilter_aborts_on_zero_dimension_witness :
    updateFilter false ⟨0, 100⟩ ⟨none, none, none, none⟩ true ⟨none, none⟩ =
      ⟨[], ⟨none, none⟩, false, none⟩ :=
  updateFilter_aborts_on_zero_dimension false ⟨0, 100⟩ ⟨none, none, none, none⟩
    true ⟨none, none⟩ (Or.inl rfl)

/-- C6 (bug evidence): start from a fresh instance at a fixed size; cycle 1
publishes blur 2 and stores the key; cycle 2 (blur attribute edited to "5",
size unchanged) publishes blur 5 but cache-hits, so `_prev.blur` keeps the
stale 2; cycle 3, with nothing changed, publishes blur 5 again even though
5 is exactly the value last published — contradicting the source's own
`// Only touch CSS if changed` and the claim, because `_prev` is only
updated on the regeneration path. -/
theorem blur_republished_after_cache_hit :
    (updateFilter false ⟨200, 100⟩ ⟨none, none, none, some "5"⟩ true
      (updateFilter false ⟨200, 100⟩ ⟨none, none, none, none⟩ true
        ⟨none, none⟩).prev).writes = [StyleWrite.blur (JSNum.num 5)] ∧
    (updateFilter false ⟨200, 100⟩ ⟨none, none, none, some "5"⟩ true
      (updateFilter false ⟨200, 100⟩ ⟨none, none, none, none⟩ true
        ⟨none, none⟩).prev).regenerated = false ∧
    (updateFilter false ⟨200, 100⟩ ⟨none, none, none, some "5"⟩ true
      (updateFilter false ⟨200, 100⟩ ⟨none, none, none, some "5"⟩ true
        (updateFilter false ⟨200, 100⟩ ⟨none, none, none, none⟩ true
          ⟨none, none⟩).prev).prev).writes = [StyleWrite.blur (JSNum.num 5)] := by
  have hg : ¬((⟨200, 100⟩ : Rect).width = 0 ∨ (⟨200, 100⟩ : Rect).height = 0) := by
    norm_num
  have hb5 : getNumberAttribute (some "5") 2 = JSNum.num 5 := by
    rw [getNumberAttribute, if_neg (by decide), parseFloat_digit5]
  have h1 := (updateFilter_regen_of_not_hit false ⟨200, 100⟩ ⟨none, none, none, none⟩
    true ⟨none, none⟩ hg (fun hc => Option.noConfusion hc.2)).2
  have hP1 := updateFilter_prev_key false ⟨200, 100⟩ ⟨none, none, none, none⟩
    true ⟨none, none⟩ hg
  have h2 := updateFilter_cache_hit false ⟨200, 100⟩ ⟨none, none, none, some "5"⟩ true
    (updateFilter false ⟨200, 100⟩ ⟨none, none, none, none⟩ true ⟨none, none⟩).prev
    hg ⟨rfl, hP1⟩
  have hblur : prevBlurDiffers
      (updateFilter false ⟨200, 100⟩ ⟨none, none, none, none⟩ true
        ⟨none, none⟩).prev.blur
      (getNumberAttribute (some "5") 2) = true := by
    rw [h1, hb5]
    show jsNeq (JSNum.num 2) (JSNum.num 5) = true
    rw [jsNeq]
    norm_num
  refine ⟨?_, ?_, ?_⟩
  · simp only [h2]
    rw [if_pos hblur]
    simp [hb5]
  · simp only [h2]
  · simp only [h2]
    rw [if_pos hblur]
    simp [hb5]

/-- C7: whenever the resolved strength and chromatic aberration are both
`≤ 0`, no filter document is assembled in the cycle, any filter-channel
write publishes the literal `none`, and if the regeneration path runs at
all the `none` write actually occurs. -/
theorem nonpositive_strength_publishes_none (force : Bool) (rect : Rect)
    (attrs : Attrs) (advSupported : Bool) (prev : PrevState)
    (hs : jsLe (getNumberAttribute attrs.strength 100) (JSNum.num 0) = true)
    (hc : jsLe (getNumberAttribute attrs.chromatic 0) (JSNum.num 0) = true) :
    (updateFilter force rect attrs advSupported prev).built = none ∧
    (∀ v, StyleWrite.filter v ∈ (updateFilter force rect attrs advSupported prev).writes →
      v = FilterRef.noneRef) ∧
    ((updateFilter force rect attrs advSupported prev).regenerated = true →
      StyleWrite.filter FilterRef.noneRef ∈
        (updateFilter force rect attrs advSupported prev).writes) := by
  have hgt : ¬(advSupported = true ∧
      (jsGt (getNumberAttribute attrs.strength 100) (JSNum.num 0) = true ∨
        jsGt (getNumberAttribute attrs.chromatic 0) (JSNum.num 0) = true)) := by
    rintro ⟨-, hg | hg⟩
    · rw [jsGt_eq_false_of_jsLe hs] at hg
      exact Bool.noConfusion hg
    · rw [jsGt_eq_false_of_jsLe hc] at hg
      exact Bool.noConfusion hg
  by_cases hzero : (rect.width = 0 ∨ rect.height = 0)
  · rw [updateFilter, if_pos hzero]
    refine ⟨rfl, ?_, ?_⟩
    · intro v hv
      exact absurd hv (List.not_mem_nil _)
    · intro hr
      exact absurd hr (by simp)
  · by_cases hcache : (force = false ∧ prev.key = some (cacheKey (jsRound rect.width)
        (jsRound rect.height) (getNumberAttribute attrs.depth 10)
        (getNumberAttribute attrs.strength 100)
        (getNumberAttribute attrs.chromatic 0)))
    · rw [updateFilter_cache_hit force rect attrs advSupported prev hzero hcache]
      refine ⟨rfl, ?_, ?_⟩
      · intro v hv
        by_cases hb : prevBlurDiffers prev.blur (getNumberAttribute attrs.blur 2) = true
        · rw [if_pos hb] at hv
          exact StyleWrite.noConfusion (List.mem_singleton.mp hv)
        · rw [if_neg hb] at hv
          exact absurd hv (List.not_mem_nil _)
      · intro hr
        exact absurd hr (by simp)
    · have hbody : updateFilter force rect attrs advSupported prev =
          ⟨(if prevBlurDiffers prev.blur (getNumberAttribute attrs.blur 2) = true
              then [StyleWrite.blur (getNumberAttribute attrs.blur 2)] else []) ++
            [StyleWrite.filter FilterRef.noneRef],
            ⟨some (cacheKey (jsRound rect.width) (jsRound rect.height)
              (getNumberAttribute attrs.depth 10)
              (getNumberAttribute attrs.strength 100)
              (getNumberAttribute attrs.chromatic 0)),
              some (getNumberAttribute attrs.blur 2)⟩, true, none⟩ := by
        simp only [updateFilter, if_neg hzero]
        rw [if_neg hcache, if_neg hgt]
      rw [hbody]
      refine ⟨rfl, ?_, ?_⟩
      · intro v hv
        rcases List.mem_append.mp hv with hv | hv
        · by_cases hb : prevBlurDiffers prev.blur (getNumberAttribute attrs.blur 2) = true
          · rw [if_pos hb] at hv
            exact StyleWrite.noConfusion (List.mem_singleton.mp hv)
          · rw [if_neg hb] at hv
            exact absurd hv (List.not_mem_nil _)
        · exact StyleWrite.filter.inj (List.mem_singleton.mp hv)
      · intro hr
        exact List.mem_append.mpr (Or.inr (List.mem_singleton.mpr rfl))

theorem nonpositive_strength_publishes_none_witness :
    jsLe (getNumberAttribute (some "0") 100) (JSNum.num 0) = true ∧
    (updateFilter false ⟨200, 100⟩ ⟨none, some "0", none, none⟩ true
      ⟨none, none⟩).built = none ∧
    (∀ v, StyleWrite.filter v ∈ (updateFilter false ⟨200, 100⟩
        ⟨none, some "0", none, none⟩ true ⟨none, none⟩).writes →
      v = FilterRef.noneRef) := by
  have hs : jsLe (getNumberAttribute (some "0") 100) (JSNum.num 0) = true := by
    rw [getNumberAttribute, if_neg (by decide), parseFloat_digit0, jsLe]
    norm_num
  have hc : jsLe (getNumberAttribute none 0) (JSNum.num 0) = true := by
    rw [getNumberAttribute, jsLe]
    norm_num
  have main := nonpositive_strength_publishes_none false ⟨200, 100⟩
    ⟨none, some "0", none, none⟩ true ⟨none, none⟩ hs hc
  exact ⟨hs, main.1, main.2.1⟩
